import Mathlib

/-!
Shallow embedding of the `ai-footprint` calculation core (`src/index.ts`).

Numbers are modelled as rationals (`ℚ`): every arithmetic operation the
source performs on its inputs (addition, multiplication, division,
clamping via min/max) is exact on the inputs in scope, so the rational
model mirrors the source formulas. Optional fields become `Option ℚ`,
thrown `Error`s become `Except.error` carrying the source's message
string, and JavaScript truthiness tests on optional numbers are modelled
by `truthy` below. Diagnostic notes are modelled as an inductive `Note`
carrying the numeric payloads the source interpolates into its note
strings (the decimal formatting applied by `toFixed` is not modelled; no
claim concerns the rendered text).
-/

namespace AiFootprint

/-- Truthiness of an optional JavaScript number: present and nonzero.
(`undefined`, `0` are falsy; any other finite number is truthy.) -/
def truthy : Option ℚ → Bool
  | none => false
  | some q => q != 0

/-- Model categories, mirroring the `ModelCategory` union type. -/
inductive ModelCategory
  | chatCompletions
  | textCompletions
  | embeddings
  | audioTranscription
  | audioTranslation
  | audioSpeech
  | imageGeneration
  | ocr
deriving DecidableEq

/-- Usage variants, mirroring the tagged `Usage` union: each variant carries
its workload fields plus an optional per-usage `processingTimeSeconds`. -/
inductive Usage
  | chat (inputTokens outputTokens : ℚ) (processingTimeSeconds : Option ℚ)
  | text (inputTokens outputTokens : ℚ) (processingTimeSeconds : Option ℚ)
  | embeddings (inputTokens : ℚ) (processingTimeSeconds : Option ℚ)
  | ocr (inputTokens outputTokens : ℚ) (processingTimeSeconds : Option ℚ)
  | audioTranscription (audioSeconds : ℚ) (processingTimeSeconds : Option ℚ)
  | audioTranslation (audioSeconds : ℚ) (processingTimeSeconds : Option ℚ)
  | audioSpeech (audioSeconds : ℚ) (processingTimeSeconds : Option ℚ)
  | imageGeneration (width height images : ℚ) (processingTimeSeconds : Option ℚ)
deriving DecidableEq

/-- Category tag carried by a usage variant. -/
def Usage.category : Usage → ModelCategory
  | .chat _ _ _ => .chatCompletions
  | .text _ _ _ => .textCompletions
  | .embeddings _ _ => .embeddings
  | .ocr _ _ _ => .ocr
  | .audioTranscription _ _ => .audioTranscription
  | .audioTranslation _ _ => .audioTranslation
  | .audioSpeech _ _ => .audioSpeech
  | .imageGeneration _ _ _ _ => .imageGeneration

/-- Optional `processingTimeSeconds` carried by a usage variant. -/
def Usage.processingTimeSeconds : Usage → Option ℚ
  | .chat _ _ t => t
  | .text _ _ t => t
  | .embeddings _ t => t
  | .ocr _ _ t => t
  | .audioTranscription _ t => t
  | .audioTranslation _ t => t
  | .audioSpeech _ t => t
  | .imageGeneration _ _ _ t => t

/-- Mirror of `ThroughputConfig`. -/
structure ThroughputConfig where
  tokensPerSecond : Option ℚ := none
  audioSecondsPerSecond : Option ℚ := none
  pixelsPerSecond : Option ℚ := none
deriving DecidableEq

/-- Mirror of `EnergyInputs`. -/
structure EnergyInputs where
  energyKwh : Option ℚ := none
  energyJoules : Option ℚ := none
deriving DecidableEq

/-- Mirror of `EfficiencyOptions`. -/
structure EfficiencyOptions where
  pue : Option ℚ := none
  overheadFactor : Option ℚ := none
  efficiencyFactor : Option ℚ := none
  batchSize : Option ℚ := none
  precision : Option String := none
  quantization : Option String := none
deriving DecidableEq

/-- Mirror of `NumericRange`. -/
structure NumericRange where
  min : ℚ
  max : ℚ
deriving DecidableEq

/-- Mirror of `UncertaintyRanges`. -/
structure UncertaintyRanges where
  gpuPowerW : Option NumericRange := none
  pue : Option NumericRange := none
  overheadFactor : Option NumericRange := none
  efficiencyFactor : Option NumericRange := none
  tokensPerSecond : Option NumericRange := none
  audioSecondsPerSecond : Option NumericRange := none
  pixelsPerSecond : Option NumericRange := none
deriving DecidableEq

/-- Mirror of `ImpactInputs` (the full estimator input). The timestamp is
opaque to the core (only forwarded to the resolver callback); it is
modelled as an optional rational. The resolver callback is modelled as a
function from the normalized region and the timestamp to a number; see
`resolveGridIntensityJs` for the variant with arbitrary runtime return
values. -/
structure ImpactInputs where
  gpuPowerW : ℚ
  cpuPowerW : Option ℚ := none
  networkPowerW : Option ℚ := none
  modelParamsB : Option ℚ := none
  region : Option String := none
  gridCarbonIntensityGPerKwh : Option ℚ := none
  timestamp : Option ℚ := none
  gridIntensityResolver : Option (Option String → Option ℚ → ℚ) := none
  processingTimeSeconds : Option ℚ := none
  usage : Option Usage := none
  throughput : Option ThroughputConfig := none
  energy : Option EnergyInputs := none
  efficiency : Option EfficiencyOptions := none

/-- Diagnostic notes pushed by the source, with the numeric payloads the
source interpolates into the note strings. -/
inductive Note
  | basePower (w : ℚ)
  | overheadFactor (f : ℚ)
  | pue (p : ℚ)
  | energyOverrideProvided
  | timeProvidedAlongsideEnergy
  | timeProvidedInUsageAlongsideEnergy
  | timeNotProvidedWithEnergy
  | gridIntensity (g : ℚ)
  | precision (s : String)
  | quantization (s : String)
deriving DecidableEq

/-- Mirror of `ImpactResult`. -/
structure ImpactResult where
  category : Option ModelCategory
  energyKwh : ℚ
  co2Grams : ℚ
  gridCarbonIntensityGPerKwh : ℚ
  effectivePowerW : ℚ
  processingTimeSeconds : ℚ
  notes : List Note
deriving DecidableEq

/-- Mirror of `ImpactRangeResult`. -/
structure ImpactRangeResult where
  base : ImpactResult
  energyKwhMin : ℚ
  energyKwhMax : ℚ
  co2GramsMin : ℚ
  co2GramsMax : ℚ
deriving DecidableEq

/-- Mirror of `AggregateImpactResult`. -/
structure AggregateImpactResult where
  count : Nat
  energyKwh : ℚ
  co2Grams : ℚ
deriving DecidableEq

/-- First-match association lookup, mirroring JavaScript property access
on the embedded constant objects (which have no duplicate keys). -/
def lookupTable : List (String × ℚ) → String → Option ℚ
  | [], _ => none
  | (k, v) :: rest, key => if key = k then some v else lookupTable rest key

/-- Modelled from the spec: the merged grid-intensity table
`DEFAULT_GRID_CARBON_G_PER_KWH` (base map spread together with the
values of `data/grid-carbon-intensity.2025.json`; the JSON dataset file
itself is not under `src`, so the merged values are taken from the
spec's scenarios (eu = 210.21, no = 29, global = 475) and the
repository docs' region table, which agree with the in-source base map
on its eight entries). -/
def DEFAULT_GRID_CARBON_G_PER_KWH : List (String × ℚ) :=
  [("global", 475), ("us", 400), ("ca", 130), ("jp", 470), ("sg", 470),
   ("au", 600), ("in", 700), ("br", 80),
   ("eu", 210.21), ("at", 114), ("be", 150), ("ba", 612), ("bg", 275),
   ("hr", 160), ("cy", 488), ("cz", 401), ("dk", 114), ("ee", 319),
   ("fi", 57), ("fr", 42), ("de", 332), ("gr", 316), ("hu", 162),
   ("ie", 256), ("xk", 947), ("lv", 139), ("lt", 140), ("lu", 124),
   ("mt", 472), ("me", 265), ("mk", 531), ("nl", 253), ("no", 29),
   ("pl", 592), ("pt", 128), ("ro", 251), ("rs", 696), ("sk", 95),
   ("si", 183), ("es", 153), ("se", 35), ("ch", 33), ("tr", 475),
   ("uk", 217)]

/-- Mirror of `REGION_ALIASES`. -/
def REGION_ALIASES : List (String × String) :=
  [("gb", "uk"), ("united kingdom", "uk"), ("usa", "us"),
   ("us-east", "us"), ("us-west", "us"), ("us-central", "us"),
   ("eu-west", "eu"), ("eu-central", "eu"), ("europe", "eu"),
   ("eu (ember)", "eu"),
   ("czechia", "cz"), ("switzerland", "ch"), ("turkey", "tr"),
   ("kosovo", "xk"), ("north macedonia", "mk"), ("montenegro", "me"),
   ("serbia", "rs"), ("bosnia and herzegovina", "ba"),
   ("is", "eu"),
   ("cn", "global"), ("kr", "global"), ("mx", "global"),
   ("za", "global"), ("ae", "global"), ("sa", "global"),
   ("nz", "global"), ("il", "global"), ("ar", "global"),
   ("cl", "global"), ("co", "global"), ("pe", "global"),
   ("id", "global"), ("th", "global"), ("vn", "global"),
   ("ph", "global"), ("my", "global"), ("tw", "global"),
   ("hk", "global"), ("pk", "global"), ("bd", "global"),
   ("ng", "global"), ("eg", "global"), ("ma", "global"),
   ("ke", "global"), ("tn", "global"), ("dz", "global")]

/-- First-match alias lookup (mirrors property access on `REGION_ALIASES`). -/
def lookupAlias : List (String × String) → String → Option String
  | [], _ => none
  | (k, v) :: rest, key => if key = k then some v else lookupAlias rest key

/-- Mirror of `normalizeRegion`: lower-case and trim the input; return it if
it is a (truthy) key of the intensity table, otherwise consult the alias
table. An absent or empty (falsy) region yields `none`. -/
def normalizeRegion (region : Option String) : Option String :=
  match region with
  | none => none
  | some s =>
    if s = "" then none
    else
      let key := s.toLower.trim
      match lookupTable DEFAULT_GRID_CARBON_G_PER_KWH key with
      | some v => if v ≠ 0 then some key else lookupAlias REGION_ALIASES key
      | none => lookupAlias REGION_ALIASES key

/-- Runtime value a caller-supplied resolver callback may actually return
in JavaScript, despite the TypeScript `number` annotation: a finite
number, `NaN`, positive or negative infinity, or a non-number value. -/
inductive JsVal
  | num (q : ℚ)
  | nan
  | posInf
  | negInf
  | notNum
deriving DecidableEq

/-- JavaScript `typeof v === "number"`: true for every numeric value,
including `NaN` and the infinities. -/
def JsVal.isNumberType : JsVal → Bool
  | .notNum => false
  | _ => true

/-- JavaScript comparison `v > 0`: true for positive finite numbers and
for positive infinity; false for `NaN`, negative infinity,
non-positive numbers and non-numbers. -/
def JsVal.gtZero : JsVal → Bool
  | .num q => decide (0 < q)
  | .posInf => true
  | _ => false

/-- Steps 3 and 4 of `resolveGridIntensity`: the (truthy) region-table
entry for the normalized region, else the table's `global` entry. -/
def gridTableStep (normalizedRegion : Option String) : ℚ :=
  match normalizedRegion with
  | some r =>
    match lookupTable DEFAULT_GRID_CARBON_G_PER_KWH r with
    | some v =>
      if v ≠ 0 then v
      else (lookupTable DEFAULT_GRID_CARBON_G_PER_KWH "global").getD 0
    | none => (lookupTable DEFAULT_GRID_CARBON_G_PER_KWH "global").getD 0
  | none => (lookupTable DEFAULT_GRID_CARBON_G_PER_KWH "global").getD 0

/-- Mirror of `resolveGridIntensity` with the resolver callback modelled at
JavaScript runtime precision (its return value may be any `JsVal`).
Precedence follows the source: explicit positive value, then the
resolver callback's return value when it passes the source's check
`typeof resolved === "number" && resolved > 0`, then the (truthy)
region-table entry, then the table's `global` entry. -/
def resolveGridIntensityJs (region : Option String)
    (gridCarbonIntensityGPerKwh : Option ℚ)
    (gridIntensityResolver : Option (Option String → Option ℚ → JsVal))
    (timestamp : Option ℚ) : JsVal :=
  match gridCarbonIntensityGPerKwh with
  | some g =>
    if 0 < g then .num g
    else resolveGridIntensityJsRest region gridIntensityResolver timestamp
  | none => resolveGridIntensityJsRest region gridIntensityResolver timestamp
where
  /-- Resolution after the explicit-value check fails. -/
  resolveGridIntensityJsRest (region : Option String)
      (gridIntensityResolver : Option (Option String → Option ℚ → JsVal))
      (timestamp : Option ℚ) : JsVal :=
    let normalizedRegion := normalizeRegion region
    match gridIntensityResolver with
    | some f =>
      let resolved := f normalizedRegion timestamp
      if resolved.isNumberType && resolved.gtZero then resolved
      else .num (gridTableStep normalizedRegion)
    | none => .num (gridTableStep normalizedRegion)

/-- Mirror of `resolveGridIntensity` at the TypeScript type level (the
resolver returns a finite number, modelled as `ℚ`); this is the form
used by the estimator pipeline. The unknown-region `console.warn` is a
side effect with no influence on the returned value and is not
modelled. -/
def resolveGridIntensity (region : Option String)
    (gridCarbonIntensityGPerKwh : Option ℚ)
    (gridIntensityResolver : Option (Option String → Option ℚ → ℚ))
    (timestamp : Option ℚ) : ℚ :=
  match gridCarbonIntensityGPerKwh with
  | some g =>
    if 0 < g then g
    else resolveGridIntensityRest region gridIntensityResolver timestamp
  | none => resolveGridIntensityRest region gridIntensityResolver timestamp
where
  /-- Resolution after the explicit-value check fails. -/
  resolveGridIntensityRest (region : Option String)
      (gridIntensityResolver : Option (Option String → Option ℚ → ℚ))
      (timestamp : Option ℚ) : ℚ :=
    let normalizedRegion := normalizeRegion region
    match gridIntensityResolver with
    | some f =>
      let resolved := f normalizedRegion timestamp
      if 0 < resolved then resolved else gridTableStep normalizedRegion
    | none => gridTableStep normalizedRegion

/-- Mirror of `requirePositive`: reject a non-positive value with the
source's error message. (All modelled numbers are finite, so the
source's `Number.isFinite` conjunct always holds here; call sites that
can receive `NaN` via `?? NaN` are modelled by `requirePositiveOpt`.) -/
def requirePositive (name : String) (value : ℚ) : Except String Unit :=
  if value ≤ 0 then .error (name ++ " must be a positive number.")
  else .ok ()

/-- Mirror of the call pattern `requirePositive(name, v ?? NaN)`: an absent
value becomes `NaN`, which `Number.isFinite` rejects with the same
error message. -/
def requirePositiveOpt (name : String) (value : Option ℚ) : Except String Unit :=
  match value with
  | none => .error (name ++ " must be a positive number.")
  | some v => requirePositive name v

/-- Mirror of `toKwhFromJoules`. -/
def toKwhFromJoules (joules : ℚ) : ℚ := joules / 3600000

/-- Mirror of `clamp` (`Math.max(min, Math.min(value, max))`). -/
def clamp (lo value hi : ℚ) : ℚ := Max.max lo (Min.min value hi)

/-- Mirror of `deriveProcessingTimeSeconds`: a per-usage
`processingTimeSeconds` wins (validated positive); otherwise the time is
derived from the category's workload fields and the matching throughput
rate, every quantity validated positive. The source's trailing
"Unsupported usage category" throw is unreachable here because the
`Usage` variants are exhaustive. -/
def deriveProcessingTimeSeconds (usage : Usage)
    (throughput : Option ThroughputConfig) : Except String ℚ :=
  match usage.processingTimeSeconds with
  | some t =>
    match requirePositive "processingTimeSeconds" t with
    | .error e => .error e
    | .ok _ => .ok t
  | none =>
    match usage with
    | .chat inputTokens outputTokens _ =>
      derivedTokenTime inputTokens outputTokens
        (throughput.bind ThroughputConfig.tokensPerSecond)
    | .text inputTokens outputTokens _ =>
      derivedTokenTime inputTokens outputTokens
        (throughput.bind ThroughputConfig.tokensPerSecond)
    | .ocr inputTokens outputTokens _ =>
      derivedTokenTime inputTokens outputTokens
        (throughput.bind ThroughputConfig.tokensPerSecond)
    | .embeddings inputTokens _ =>
      match requirePositive "inputTokens" inputTokens with
      | .error e => .error e
      | .ok _ =>
        match requirePositiveOpt "throughput.tokensPerSecond"
            (throughput.bind ThroughputConfig.tokensPerSecond) with
        | .error e => .error e
        | .ok _ =>
          .ok (inputTokens /
            (throughput.bind ThroughputConfig.tokensPerSecond).getD 0)
    | .audioTranscription audioSeconds _ =>
      derivedAudioTime audioSeconds
        (throughput.bind ThroughputConfig.audioSecondsPerSecond)
    | .audioTranslation audioSeconds _ =>
      derivedAudioTime audioSeconds
        (throughput.bind ThroughputConfig.audioSecondsPerSecond)
    | .audioSpeech audioSeconds _ =>
      derivedAudioTime audioSeconds
        (throughput.bind ThroughputConfig.audioSecondsPerSecond)
    | .imageGeneration width height images _ =>
      match requirePositive "width" width with
      | .error e => .error e
      | .ok _ =>
        match requirePositive "height" height with
        | .error e => .error e
        | .ok _ =>
          match requirePositive "images" images with
          | .error e => .error e
          | .ok _ =>
            match requirePositiveOpt "throughput.pixelsPerSecond"
                (throughput.bind ThroughputConfig.pixelsPerSecond) with
            | .error e => .error e
            | .ok _ =>
              .ok (width * height * images /
                (throughput.bind ThroughputConfig.pixelsPerSecond).getD 0)
where
  /-- Shared token-based branch (chat, text, ocr). -/
  derivedTokenTime (inputTokens outputTokens : ℚ) (tps : Option ℚ) :
      Except String ℚ :=
    match requirePositive "inputTokens" inputTokens with
    | .error e => .error e
    | .ok _ =>
      match requirePositive "outputTokens" outputTokens with
      | .error e => .error e
      | .ok _ =>
        match requirePositiveOpt "throughput.tokensPerSecond" tps with
        | .error e => .error e
        | .ok _ => .ok ((inputTokens + outputTokens) / tps.getD 0)
  /-- Shared audio-based branch (transcription, translation, speech). -/
  derivedAudioTime (audioSeconds : ℚ) (aps : Option ℚ) : Except String ℚ :=
    match requirePositive "audioSeconds" audioSeconds with
    | .error e => .error e
    | .ok _ =>
      match requirePositiveOpt "throughput.audioSecondsPerSecond" aps with
      | .error e => .error e
      | .ok _ => .ok (audioSeconds / aps.getD 0)

/-- Mirror of `resolveEnergyKwh`: a truthy positive `energyKwh` wins, then a
truthy positive `energyJoules` (converted), else no override. -/
def resolveEnergyKwh (energy : Option EnergyInputs) : Option ℚ :=
  match energy with
  | none => none
  | some e =>
    match e.energyKwh with
    | some k =>
      if k ≠ 0 ∧ 0 < k then some k else resolveEnergyFromJoules e
    | none => resolveEnergyFromJoules e
where
  /-- Second line of the source: the `energyJoules` check. -/
  resolveEnergyFromJoules (e : EnergyInputs) : Option ℚ :=
    match e.energyJoules with
    | some j => if j ≠ 0 ∧ 0 < j then some (toKwhFromJoules j) else none
    | none => none

/-- Mirror of `DEFAULT_OVERHEAD`. -/
def DEFAULT_OVERHEAD : ℚ := 1

/-- Mirror of `DEFAULT_PUE`. -/
def DEFAULT_PUE : ℚ := 1

/-- Mirror of `computeEffectivePowerW`: validate `gpuPowerW`; default absent
`cpuPowerW`/`networkPowerW` to 0 and validate them only when truthy
(the source guards each `requirePositive` call with a truthiness test,
so an explicitly supplied 0 skips validation and contributes nothing);
clamp the overhead factor to [0.1, 10] and the PUE to [1.0, 3.0]; then
multiply. Returns the effective power together with the three
diagnostic notes. -/
def computeEffectivePowerW (input : ImpactInputs) :
    Except String (ℚ × List Note) :=
  match requirePositive "gpuPowerW" input.gpuPowerW with
  | .error e => .error e
  | .ok _ =>
    let cpuPowerW := input.cpuPowerW.getD 0
    let networkPowerW := input.networkPowerW.getD 0
    match (if cpuPowerW ≠ 0 then requirePositive "cpuPowerW" cpuPowerW
           else .ok ()) with
    | .error e => .error e
    | .ok _ =>
      match (if networkPowerW ≠ 0 then
               requirePositive "networkPowerW" networkPowerW
             else .ok ()) with
      | .error e => .error e
      | .ok _ =>
        let basePowerW := input.gpuPowerW + cpuPowerW + networkPowerW
        let overheadFactor := clamp 0.1
          ((input.efficiency.bind EfficiencyOptions.overheadFactor).getD
            DEFAULT_OVERHEAD) 10
        let pue := clamp 1
          ((input.efficiency.bind EfficiencyOptions.pue).getD DEFAULT_PUE) 3
        let effectivePowerW := basePowerW * overheadFactor * pue
        .ok (effectivePowerW,
          [.basePower basePowerW, .overheadFactor overheadFactor, .pue pue])

/-- Mirror of `applyEfficiencyToTime`: a falsy (absent or zero)
`efficiencyFactor` leaves the time unchanged; a truthy one is validated
positive and divides the time. -/
def applyEfficiencyToTime (processingTimeSeconds : ℚ)
    (efficiency : Option EfficiencyOptions) : Except String ℚ :=
  match efficiency.bind EfficiencyOptions.efficiencyFactor with
  | none => .ok processingTimeSeconds
  | some f =>
    if f = 0 then .ok processingTimeSeconds
    else
      match requirePositive "efficiency.efficiencyFactor" f with
      | .error e => .error e
      | .ok _ => .ok (processingTimeSeconds / f)

/-- Mirror of `applyBatchSize`: a falsy (absent or zero) `batchSize` leaves
the energy unchanged; a truthy one is validated positive and divides
the energy. -/
def applyBatchSize (energyKwh : ℚ)
    (efficiency : Option EfficiencyOptions) : Except String ℚ :=
  match efficiency.bind EfficiencyOptions.batchSize with
  | none => .ok energyKwh
  | some b =>
    if b = 0 then .ok energyKwh
    else
      match requirePositive "efficiency.batchSize" b with
      | .error e => .error e
      | .ok _ => .ok (energyKwh / b)

/-- Optional trailing notes for `precision` and `quantization` (each pushed
when the corresponding string field is truthy, i.e. present and
non-empty). -/
def precisionNotes (efficiency : Option EfficiencyOptions) : List Note :=
  (match efficiency.bind EfficiencyOptions.precision with
   | some s => if s ≠ "" then [Note.precision s] else []
   | none => []) ++
  (match efficiency.bind EfficiencyOptions.quantization with
   | some s => if s ≠ "" then [Note.quantization s] else []
   | none => [])

/-- Processing time reported alongside an active energy override, with its
note: an explicit input-level `processingTimeSeconds` (validated
positive) wins, then a truthy usage-level one (validated positive),
else 0. -/
def energyPathTime (input : ImpactInputs) : Except String (ℚ × Note) :=
  match input.processingTimeSeconds with
  | some t =>
    match requirePositive "processingTimeSeconds" t with
    | .error e => .error e
    | .ok _ => .ok (t, .timeProvidedAlongsideEnergy)
  | none =>
    match input.usage.bind Usage.processingTimeSeconds with
    | some t =>
      if t = 0 then .ok (0, .timeNotProvidedWithEnergy)
      else
        match requirePositive "processingTimeSeconds" t with
        | .error e => .error e
        | .ok _ => .ok (t, .timeProvidedInUsageAlongsideEnergy)
    | none => .ok (0, .timeNotProvidedWithEnergy)

/-- Processing time in the non-override path: an explicit input-level
`processingTimeSeconds` (validated positive) wins, then time derived
from usage, else the missing-combination error. -/
def powerPathBaseTime (input : ImpactInputs) : Except String ℚ :=
  match input.processingTimeSeconds with
  | some t =>
    match requirePositive "processingTimeSeconds" t with
    | .error e => .error e
    | .ok _ => .ok t
  | none =>
    match input.usage with
    | some u => deriveProcessingTimeSeconds u input.throughput
    | none =>
      .error "Either processingTimeSeconds, usage, or energy must be provided."

/-- Mirror of `estimateImpact`: resolve the grid intensity, detect an energy
override, compute the effective power (its validation runs in both
paths), then either take the override energy (reporting any supplied
time) or derive the time, apply the efficiency divisor and convert
power times time to kWh; finally divide by the batch size, multiply by
the grid intensity for CO2, and assemble the result with its notes in
computation order. -/
def estimateImpact (input : ImpactInputs) : Except String ImpactResult :=
  let gridIntensity := resolveGridIntensity input.region
    input.gridCarbonIntensityGPerKwh input.gridIntensityResolver
    input.timestamp
  let energyOverride := resolveEnergyKwh input.energy
  match computeEffectivePowerW input with
  | .error e => .error e
  | .ok (effectivePowerW, powerNotes) =>
    match energyOverride with
    | some ov =>
      match energyPathTime input with
      | .error e => .error e
      | .ok (processingTimeSeconds, timeNote) =>
        match applyBatchSize ov input.efficiency with
        | .error e => .error e
        | .ok energyKwh =>
          .ok { category := input.usage.map Usage.category
                energyKwh := energyKwh
                co2Grams := energyKwh * gridIntensity
                gridCarbonIntensityGPerKwh := gridIntensity
                effectivePowerW := effectivePowerW
                processingTimeSeconds := processingTimeSeconds
                notes := powerNotes ++
                  [Note.energyOverrideProvided, timeNote,
                   Note.gridIntensity gridIntensity] ++
                  precisionNotes input.efficiency }
    | none =>
      match powerPathBaseTime input with
      | .error e => .error e
      | .ok t0 =>
        match applyEfficiencyToTime t0 input.efficiency with
        | .error e => .error e
        | .ok processingTimeSeconds =>
          match applyBatchSize
              (effectivePowerW * processingTimeSeconds / 3600 / 1000)
              input.efficiency with
          | .error e => .error e
          | .ok energyKwh =>
            .ok { category := input.usage.map Usage.category
                  energyKwh := energyKwh
                  co2Grams := energyKwh * gridIntensity
                  gridCarbonIntensityGPerKwh := gridIntensity
                  effectivePowerW := effectivePowerW
                  processingTimeSeconds := processingTimeSeconds
                  notes := powerNotes ++
                    [Note.gridIntensity gridIntensity] ++
                    precisionNotes input.efficiency }

/-- Mirror of `validateRange`: an absent range passes; a present one must
have positive `min` and `max` with `max ≥ min`. -/
def validateRange (name : String) (range : Option NumericRange) :
    Except String Unit :=
  match range with
  | none => .ok ()
  | some r =>
    match requirePositive (name ++ ".min") r.min with
    | .error e => .error e
    | .ok _ =>
      match requirePositive (name ++ ".max") r.max with
      | .error e => .error e
      | .ok _ =>
        if r.max < r.min then
          .error (name ++ ".max must be >= " ++ name ++ ".min.")
        else .ok ()

/-- The seven sequential `validateRange` calls at the top of
`estimateImpactRange`, in source order. -/
def validateAllRanges (ranges : UncertaintyRanges) : Except String Unit :=
  match validateRange "gpuPowerW" ranges.gpuPowerW with
  | .error e => .error e
  | .ok _ =>
    match validateRange "pue" ranges.pue with
    | .error e => .error e
    | .ok _ =>
      match validateRange "overheadFactor" ranges.overheadFactor with
      | .error e => .error e
      | .ok _ =>
        match validateRange "efficiencyFactor" ranges.efficiencyFactor with
        | .error e => .error e
        | .ok _ =>
          match validateRange "tokensPerSecond" ranges.tokensPerSecond with
          | .error e => .error e
          | .ok _ =>
            match validateRange "audioSecondsPerSecond"
                ranges.audioSecondsPerSecond with
            | .error e => .error e
            | .ok _ =>
              validateRange "pixelsPerSecond" ranges.pixelsPerSecond

/-- Which extreme of each range to select. -/
inductive Pick
  | min
  | max
deriving DecidableEq

/-- Mirror of `pickRangeValue`: keep the original value when no range is
supplied, otherwise select the requested extreme. -/
def pickRangeValue (value : Option ℚ) (range : Option NumericRange)
    (pick : Pick) : Option ℚ :=
  match range with
  | none => value
  | some r =>
    match pick with
    | .min => some r.min
    | .max => some r.max

/-- Mirror of `buildInputWithRanges`: replace each ranged field with the
selected extreme, materialising an empty `throughput`/`efficiency`
object when a corresponding range is supplied but the base input has
none. For `gpuPowerW` the source casts the picked optional back to a
plain number (`as number`); the value argument is always present there,
so the `getD` default is never used. -/
def buildInputWithRanges (input : ImpactInputs) (ranges : UncertaintyRanges)
    (pick : Pick) : ImpactInputs :=
  let needsThroughput := ranges.tokensPerSecond.isSome ||
    ranges.audioSecondsPerSecond.isSome || ranges.pixelsPerSecond.isSome
  let needsEfficiency := ranges.pue.isSome || ranges.overheadFactor.isSome ||
    ranges.efficiencyFactor.isSome
  let throughput := match input.throughput with
    | some t => some t
    | none => if needsThroughput then some ({} : ThroughputConfig) else none
  let efficiency := match input.efficiency with
    | some e => some e
    | none => if needsEfficiency then some ({} : EfficiencyOptions) else none
  { input with
    gpuPowerW := (pickRangeValue (some input.gpuPowerW) ranges.gpuPowerW
      pick).getD input.gpuPowerW
    throughput := throughput.map fun t =>
      { t with
        tokensPerSecond := pickRangeValue t.tokensPerSecond
          ranges.tokensPerSecond pick
        audioSecondsPerSecond := pickRangeValue t.audioSecondsPerSecond
          ranges.audioSecondsPerSecond pick
        pixelsPerSecond := pickRangeValue t.pixelsPerSecond
          ranges.pixelsPerSecond pick }
    efficiency := efficiency.map fun e =>
      { e with
        pue := pickRangeValue e.pue ranges.pue pick
        overheadFactor := pickRangeValue e.overheadFactor
          ranges.overheadFactor pick
        efficiencyFactor := pickRangeValue e.efficiencyFactor
          ranges.efficiencyFactor pick } }

/-- Mirror of `aggregateImpacts`: a left fold summing count, energy and CO2
from the zero accumulator. -/
def aggregateImpacts (results : List ImpactResult) : AggregateImpactResult :=
  results.foldl
    (fun acc result =>
      { count := acc.count + 1
        energyKwh := acc.energyKwh + result.energyKwh
        co2Grams := acc.co2Grams + result.co2Grams })
    { count := 0, energyKwh := 0, co2Grams := 0 }

/-- Energy-override test used by `estimateImpactRange`
(`!!input.energy?.energyKwh || !!input.energy?.energyJoules`): plain
truthiness of either energy field, with no positivity or sign check. -/
def hasEnergyOverrideB (input : ImpactInputs) : Bool :=
  truthy (input.energy.bind EnergyInputs.energyKwh) ||
  truthy (input.energy.bind EnergyInputs.energyJoules)

/-- Mirror of `estimateImpactRange`: validate all ranges, compute the
nominal result, short-circuit to a degenerate envelope when the input
carries a (truthy) energy override, otherwise evaluate the estimator on
the all-mins and all-maxes inputs and take the pointwise min/max of the
two outcomes. -/
def estimateImpactRange (input : ImpactInputs) (ranges : UncertaintyRanges) :
    Except String ImpactRangeResult :=
  match validateAllRanges ranges with
  | .error e => .error e
  | .ok _ =>
    match estimateImpact input with
    | .error e => .error e
    | .ok base =>
      if hasEnergyOverrideB input then
        .ok { base := base
              energyKwhMin := base.energyKwh
              energyKwhMax := base.energyKwh
              co2GramsMin := base.co2Grams
              co2GramsMax := base.co2Grams }
      else
        match estimateImpact (buildInputWithRanges input ranges Pick.min) with
        | .error e => .error e
        | .ok low =>
          match estimateImpact
              (buildInputWithRanges input ranges Pick.max) with
          | .error e => .error e
          | .ok high =>
            .ok { base := base
                  energyKwhMin := Min.min low.energyKwh high.energyKwh
                  energyKwhMax := Max.max low.energyKwh high.energyKwh
                  co2GramsMin := Min.min low.co2Grams high.co2Grams
                  co2GramsMax := Max.max low.co2Grams high.co2Grams }

/-! Helper lemmas about the embedded definitions. -/

/-- Successful `requirePositive` means the value was positive. -/
theorem requirePositive_ok {name : String} {v : ℚ} {u : Unit}
    (h : requirePositive name v = .ok u) : 0 < v := by
  by_contra hv
  simp [requirePositive, le_of_not_lt hv] at h

/-- Successful `requirePositiveOpt` means the value was present and
positive. -/
theorem requirePositiveOpt_ok {name : String} {v : Option ℚ} {u : Unit}
    (h : requirePositiveOpt name v = .ok u) : ∃ q, v = some q ∧ 0 < q := by
  match v with
  | none => simp [requirePositiveOpt] at h
  | some q => exact ⟨q, rfl, requirePositive_ok h⟩

/-- A successful table lookup returns a pair of the list. -/
theorem lookupTable_mem {l : List (String × ℚ)} {k : String} {v : ℚ}
    (h : lookupTable l k = some v) : (k, v) ∈ l := by
  induction l with
  | nil => simp [lookupTable] at h
  | cons p rest ih =>
    obtain ⟨pk, pv⟩ := p
    by_cases hk : k = pk
    · subst hk
      simp [lookupTable] at h
      obtain rfl := h
      exact List.mem_cons_self _ _
    · simp only [lookupTable, if_neg hk] at h
      exact List.mem_cons_of_mem _ (ih h)

/-- Every value of the embedded grid-intensity table is positive. -/
theorem DEFAULT_GRID_CARBON_G_PER_KWH_pos :
    ∀ p ∈ DEFAULT_GRID_CARBON_G_PER_KWH, 0 < p.2 := by
  intro p hp
  fin_cases hp <;> norm_num

/-- The `global` entry of the table evaluates to 475. -/
theorem lookupTable_global :
    (lookupTable DEFAULT_GRID_CARBON_G_PER_KWH "global").getD 0 = 475 := rfl

/-- The table-and-global fallback step always yields a positive value. -/
theorem gridTableStep_pos (normalizedRegion : Option String) :
    0 < gridTableStep normalizedRegion := by
  unfold gridTableStep
  split
  · rename_i r
    split
    · rename_i v hv
      split
      · exact DEFAULT_GRID_CARBON_G_PER_KWH_pos _ (lookupTable_mem hv)
      · rw [lookupTable_global]; norm_num
    · rw [lookupTable_global]; norm_num
  · rw [lookupTable_global]; norm_num

/-- Grid-intensity resolution always yields a positive value. -/
theorem resolveGridIntensity_pos (region : Option String)
    (explicitVal : Option ℚ)
    (resolver : Option (Option String → Option ℚ → ℚ))
    (timestamp : Option ℚ) :
    0 < resolveGridIntensity region explicitVal resolver timestamp := by
  have hrest : ∀ re rs ts,
      0 < resolveGridIntensity.resolveGridIntensityRest re rs ts := by
    intro re rs ts
    unfold resolveGridIntensity.resolveGridIntensityRest
    cases rs with
    | none => exact gridTableStep_pos _
    | some f =>
      simp only []
      split
      · assumption
      · exact gridTableStep_pos _
  unfold resolveGridIntensity
  cases explicitVal with
  | none => exact hrest _ _ _
  | some g =>
    simp only []
    split
    · assumption
    · exact hrest _ _ _

/-- A detected energy override is positive. -/
theorem resolveEnergyKwh_pos {energy : Option EnergyInputs} {k : ℚ}
    (h : resolveEnergyKwh energy = some k) : 0 < k := by
  have hj : ∀ (e : EnergyInputs) (q : ℚ),
      resolveEnergyKwh.resolveEnergyFromJoules e = some q → 0 < q := by
    intro e q hq
    unfold resolveEnergyKwh.resolveEnergyFromJoules at hq
    rcases hje : e.energyJoules with _ | j
    · simp only [hje] at hq
      cases hq
    · simp only [hje] at hq
      by_cases hc : j ≠ 0 ∧ 0 < j
      · rw [if_pos hc] at hq
        injection hq with hq'
        subst hq'
        unfold toKwhFromJoules
        have hjpos := hc.2
        positivity
      · rw [if_neg hc] at hq
        cases hq
  rcases energy with _ | e
  · simp [resolveEnergyKwh] at h
  · unfold resolveEnergyKwh at h
    rcases hke : e.energyKwh with _ | kk
    · simp only [hke] at h
      exact hj _ _ h
    · simp only [hke] at h
      by_cases hc : kk ≠ 0 ∧ 0 < kk
      · rw [if_pos hc] at h
        injection h with h'
        subst h'
        exact hc.2
      · rw [if_neg hc] at h
        exact hj _ _ h

/-- A successful power computation yields a positive effective power, equal
to the source formula with defaulted-and-clamped factors. -/
theorem computeEffectivePowerW_ok {input : ImpactInputs} {p : ℚ}
    {ns : List Note} (h : computeEffectivePowerW input = .ok (p, ns)) :
    0 < p ∧
    p = (input.gpuPowerW + (input.cpuPowerW.getD 0) +
          (input.networkPowerW.getD 0)) *
        clamp 0.1
          ((input.efficiency.bind EfficiencyOptions.overheadFactor).getD
            DEFAULT_OVERHEAD) 10 *
        clamp 1 ((input.efficiency.bind EfficiencyOptions.pue).getD
            DEFAULT_PUE) 3 := by
  unfold computeEffectivePowerW at h
  dsimp only [] at h
  split at h
  · exact absurd h (by simp)
  · rename_i u hgpu
    split at h
    · exact absurd h (by simp)
    · rename_i u' hcpu
      split at h
      · exact absurd h (by simp)
      · rename_i u'' hnet
        simp only [Except.ok.injEq, Prod.mk.injEq] at h
        obtain ⟨hp, -⟩ := h
        subst hp
        constructor
        · have hgpu' : 0 < input.gpuPowerW := requirePositive_ok hgpu
          have hcpu' : 0 ≤ input.cpuPowerW.getD 0 := by
            by_cases hz : input.cpuPowerW.getD 0 = 0
            · rw [hz]
            · rw [if_pos hz] at hcpu
              exact le_of_lt (requirePositive_ok hcpu)
          have hnet' : 0 ≤ input.networkPowerW.getD 0 := by
            by_cases hz : input.networkPowerW.getD 0 = 0
            · rw [hz]
            · rw [if_pos hz] at hnet
              exact le_of_lt (requirePositive_ok hnet)
          have hof : (0:ℚ) < clamp 0.1
              ((input.efficiency.bind EfficiencyOptions.overheadFactor).getD
                DEFAULT_OVERHEAD) 10 := by
            unfold clamp
            have : (0.1:ℚ) ≤ _ := le_max_left (0.1:ℚ)
              (Min.min ((input.efficiency.bind
                EfficiencyOptions.overheadFactor).getD DEFAULT_OVERHEAD) 10)
            calc (0:ℚ) < 0.1 := by norm_num
              _ ≤ _ := this
          have hpu : (0:ℚ) < clamp 1
              ((input.efficiency.bind EfficiencyOptions.pue).getD
                DEFAULT_PUE) 3 := by
            unfold clamp
            have : (1:ℚ) ≤ _ := le_max_left (1:ℚ)
              (Min.min ((input.efficiency.bind EfficiencyOptions.pue).getD
                DEFAULT_PUE) 3)
            linarith
          have hbase : 0 < input.gpuPowerW + input.cpuPowerW.getD 0 +
              input.networkPowerW.getD 0 := by linarith
          positivity
        · rfl

/-- A successfully derived processing time is positive. -/
theorem deriveProcessingTimeSeconds_pos {usage : Usage}
    {throughput : Option ThroughputConfig} {t : ℚ}
    (h : deriveProcessingTimeSeconds usage throughput = .ok t) : 0 < t := by
  have htok : ∀ (i o : ℚ) (tps : Option ℚ) (q : ℚ),
      deriveProcessingTimeSeconds.derivedTokenTime i o tps = .ok q →
      0 < q := by
    intro i o tps q hq
    unfold deriveProcessingTimeSeconds.derivedTokenTime at hq
    split at hq
    · cases hq
    · rename_i hi
      split at hq
      · cases hq
      · rename_i ho
        split at hq
        · cases hq
        · rename_i hv
          injection hq with hq'
          subst hq'
          obtain ⟨v, hv', hvpos⟩ := requirePositiveOpt_ok hv
          rw [hv']
          simp only [Option.getD_some]
          have := requirePositive_ok hi
          have := requirePositive_ok ho
          positivity
  have haud : ∀ (a : ℚ) (aps : Option ℚ) (q : ℚ),
      deriveProcessingTimeSeconds.derivedAudioTime a aps = .ok q →
      0 < q := by
    intro a aps q hq
    unfold deriveProcessingTimeSeconds.derivedAudioTime at hq
    split at hq
    · cases hq
    · rename_i ha
      split at hq
      · cases hq
      · rename_i hv
        injection hq with hq'
        subst hq'
        obtain ⟨v, hv', hvpos⟩ := requirePositiveOpt_ok hv
        rw [hv']
        simp only [Option.getD_some]
        have := requirePositive_ok ha
        positivity
  unfold deriveProcessingTimeSeconds at h
  split at h
  · rename_i tt htt
    split at h
    · cases h
    · rename_i hok
      injection h with h'
      subst h'
      exact requirePositive_ok hok
  · split at h
    case _ i o _ => exact htok _ _ _ _ h
    case _ i o _ => exact htok _ _ _ _ h
    case _ i o _ => exact htok _ _ _ _ h
    case _ i _ =>
      split at h
      · cases h
      · rename_i hi
        split at h
        · cases h
        · rename_i hv
          injection h with h'
          subst h'
          obtain ⟨v, hv', hvpos⟩ := requirePositiveOpt_ok hv
          rw [hv']
          simp only [Option.getD_some]
          have := requirePositive_ok hi
          positivity
    case _ a _ => exact haud _ _ _ h
    case _ a _ => exact haud _ _ _ h
    case _ a _ => exact haud _ _ _ h
    case _ w hh im _ =>
      split at h
      · cases h
      · rename_i hw
        split at h
        · cases h
        · rename_i hhh
          split at h
          · cases h
          · rename_i him
            split at h
            · cases h
            · rename_i hv
              injection h with h'
              subst h'
              obtain ⟨v, hv', hvpos⟩ := requirePositiveOpt_ok hv
              rw [hv']
              simp only [Option.getD_some]
              have := requirePositive_ok hw
              have := requirePositive_ok hhh
              have := requirePositive_ok him
              positivity

/-- The efficiency divisor preserves positivity of the time. -/
theorem applyEfficiencyToTime_pos {t t' : ℚ}
    {efficiency : Option EfficiencyOptions} (ht : 0 < t)
    (h : applyEfficiencyToTime t efficiency = .ok t') : 0 < t' := by
  unfold applyEfficiencyToTime at h
  split at h
  · injection h with h'
    subst h'
    exact ht
  · rename_i f
    split at h
    · injection h with h'
      subst h'
      exact ht
    · split at h
      · cases h
      · rename_i hf
        injection h with h'
        subst h'
        have := requirePositive_ok hf
        positivity

/-- The batch divisor preserves nonnegativity of the energy. -/
theorem applyBatchSize_nonneg {k k' : ℚ}
    {efficiency : Option EfficiencyOptions} (hk : 0 ≤ k)
    (h : applyBatchSize k efficiency = .ok k') : 0 ≤ k' := by
  unfold applyBatchSize at h
  split at h
  · injection h with h'
    subst h'
    exact hk
  · rename_i b
    split at h
    · injection h with h'
      subst h'
      exact hk
    · split at h
      · cases h
      · rename_i hb
        injection h with h'
        subst h'
        have := requirePositive_ok hb
        positivity

/-- A successful non-override base time is positive. -/
theorem powerPathBaseTime_pos {input : ImpactInputs} {t : ℚ}
    (h : powerPathBaseTime input = .ok t) : 0 < t := by
  unfold powerPathBaseTime at h
  split at h
  · split at h
    · cases h
    · rename_i hok
      injection h with h'
      subst h'
      exact requirePositive_ok hok
  · split at h
    · exact deriveProcessingTimeSeconds_pos h
    · cases h

/-- Structure of a successful estimate: the energy and the grid intensity
it was built from, with nonnegative energy, positive intensity, and the
CO2 and intensity fields determined by them. -/
theorem estimateImpact_ok_shape {input : ImpactInputs} {r : ImpactResult}
    (h : estimateImpact input = .ok r) :
    0 ≤ r.energyKwh ∧ 0 < r.gridCarbonIntensityGPerKwh ∧
    r.co2Grams = r.energyKwh * r.gridCarbonIntensityGPerKwh := by
  unfold estimateImpact at h
  dsimp only [] at h
  split at h
  · cases h
  · rename_i p ns hpw
    split at h
    · rename_i ov hov
      split at h
      · cases h
      · rename_i pts tnote hpts
        split at h
        · cases h
        · rename_i ek hbatch
          injection h with h'
          subst h'
          refine ⟨?_, resolveGridIntensity_pos _ _ _ _, rfl⟩
          exact applyBatchSize_nonneg
            (le_of_lt (resolveEnergyKwh_pos hov)) hbatch
    · split at h
      · cases h
      · rename_i t0 ht0
        split at h
        · cases h
        · rename_i pts hpts
          split at h
          · cases h
          · rename_i ek hbatch
            injection h with h'
            subst h'
            refine ⟨?_, resolveGridIntensity_pos _ _ _ _, rfl⟩
            have hp : 0 < p := (computeEffectivePowerW_ok hpw).1
            have ht : 0 < pts :=
              applyEfficiencyToTime_pos (powerPathBaseTime_pos ht0) hpts
            exact applyBatchSize_nonneg (by positivity) hbatch

/-- Claim C1: for every input accepted by `estimateImpact` (no fatal error
raised), the returned result satisfies `energyKwh ≥ 0`, `co2Grams ≥ 0`,
and `co2Grams` equals `energyKwh` multiplied by the
`gridCarbonIntensityGPerKwh` reported in the same result, exactly. -/
theorem estimateImpact_energy_co2_nonneg (input : ImpactInputs)
    (r : ImpactResult) (h : estimateImpact input = .ok r) :
    0 ≤ r.energyKwh ∧ 0 ≤ r.co2Grams ∧
    r.co2Grams = r.energyKwh * r.gridCarbonIntensityGPerKwh := by
  obtain ⟨he, hg, hc⟩ := estimateImpact_ok_shape h
  exact ⟨he, by rw [hc]; positivity, hc⟩

/-- Concrete input exercising claim C1 (power-and-time path, no region). -/
def c1Input : ImpactInputs :=
  { gpuPowerW := 100, processingTimeSeconds := some 10 }

/-- Concrete result of `estimateImpact` on `c1Input`. -/
def c1Result : ImpactResult :=
  { category := none
    energyKwh := 1/3600
    co2Grams := 19/144
    gridCarbonIntensityGPerKwh := 475
    effectivePowerW := 100
    processingTimeSeconds := 10
    notes := [Note.basePower 100, Note.overheadFactor 1, Note.pue 1,
              Note.gridIntensity 475] }

/-- Witness for claim C1 at the concrete input `c1Input`. -/
theorem estimateImpact_energy_co2_nonneg_witness :
    0 ≤ c1Result.energyKwh ∧ 0 ≤ c1Result.co2Grams ∧
    c1Result.co2Grams =
      c1Result.energyKwh * c1Result.gridCarbonIntensityGPerKwh :=
  estimateImpact_energy_co2_nonneg c1Input c1Result (by
    norm_num [c1Input, c1Result, estimateImpact, resolveGridIntensity,
      resolveGridIntensity.resolveGridIntensityRest, gridTableStep,
      normalizeRegion, resolveEnergyKwh, computeEffectivePowerW,
      requirePositive, clamp, energyPathTime, powerPathBaseTime,
      applyEfficiencyToTime, applyBatchSize, precisionNotes, lookupTable,
      DEFAULT_GRID_CARBON_G_PER_KWH, DEFAULT_OVERHEAD, DEFAULT_PUE,
      min_def, max_def])

/-- The input with `efficiency.overheadFactor` set to `x` (other efficiency
fields preserved, an absent efficiency object materialised empty). -/
def withOverheadFactor (input : ImpactInputs) (x : ℚ) : ImpactInputs :=
  let eff := input.efficiency.getD ({} : EfficiencyOptions)
  { input with efficiency := some { eff with overheadFactor := some x } }

/-- The power computation depends on its inputs only through the three power
fields and the two clamped factors. -/
theorem computeEffectivePowerW_congr (i1 i2 : ImpactInputs)
    (hg : i1.gpuPowerW = i2.gpuPowerW)
    (hc : i1.cpuPowerW.getD 0 = i2.cpuPowerW.getD 0)
    (hn : i1.networkPowerW.getD 0 = i2.networkPowerW.getD 0)
    (ho : clamp 0.1 ((i1.efficiency.bind
        EfficiencyOptions.overheadFactor).getD DEFAULT_OVERHEAD) 10 =
      clamp 0.1 ((i2.efficiency.bind
        EfficiencyOptions.overheadFactor).getD DEFAULT_OVERHEAD) 10)
    (hp : clamp 1 ((i1.efficiency.bind EfficiencyOptions.pue).getD
        DEFAULT_PUE) 3 =
      clamp 1 ((i2.efficiency.bind EfficiencyOptions.pue).getD
        DEFAULT_PUE) 3) :
    computeEffectivePowerW i1 = computeEffectivePowerW i2 := by
  unfold computeEffectivePowerW
  rw [hg, hc, hn, ho, hp]

/-- Claim C2: for every input with `gpuPowerW > 0`, the effective power
computed by the power model equals
`(gpuPowerW + cpuPowerW + networkPowerW) × overheadFactor × pue`, where
omitted `cpuPowerW`/`networkPowerW` count as 0, `overheadFactor`
defaults to 1.0 and is clamped to [0.1, 10], and `pue` defaults to 1.0
and is clamped to [1.0, 3.0]; in particular supplying `overheadFactor`
20 yields the same effective power as supplying 10, and supplying 0.01
the same as 0.1. -/
theorem computeEffectivePowerW_formula (input : ImpactInputs)
    (hgpu : 0 < input.gpuPowerW) :
    (∀ p ns, computeEffectivePowerW input = .ok (p, ns) →
      p = (input.gpuPowerW + input.cpuPowerW.getD 0 +
            input.networkPowerW.getD 0) *
          clamp 0.1
            ((input.efficiency.bind EfficiencyOptions.overheadFactor).getD 1)
            10 *
          clamp 1 ((input.efficiency.bind EfficiencyOptions.pue).getD 1) 3) ∧
    computeEffectivePowerW (withOverheadFactor input 20) =
      computeEffectivePowerW (withOverheadFactor input 10) ∧
    computeEffectivePowerW (withOverheadFactor input 0.01) =
      computeEffectivePowerW (withOverheadFactor input 0.1) := by
  refine ⟨?_, ?_, ?_⟩
  · intro p ns h
    simpa [DEFAULT_OVERHEAD, DEFAULT_PUE] using (computeEffectivePowerW_ok h).2
  · refine computeEffectivePowerW_congr _ _ rfl rfl rfl ?_ rfl
    simp only [withOverheadFactor]
    norm_num [clamp, min_def, max_def]
  · refine computeEffectivePowerW_congr _ _ rfl rfl rfl ?_ rfl
    simp only [withOverheadFactor]
    norm_num [clamp, min_def, max_def]

/-- Concrete input exercising claim C2. -/
def c2Input : ImpactInputs :=
  { gpuPowerW := 200, cpuPowerW := some 40, networkPowerW := some 10,
    efficiency := some { pue := some 1.2, overheadFactor := some 1.5 } }

/-- Witness for claim C2 at the concrete input `c2Input` (whose effective
power evaluates to `(200 + 40 + 10) × 1.5 × 1.2 = 450`). -/
theorem computeEffectivePowerW_formula_witness :
    ((∀ p ns, computeEffectivePowerW c2Input = .ok (p, ns) →
      p = (c2Input.gpuPowerW + c2Input.cpuPowerW.getD 0 +
            c2Input.networkPowerW.getD 0) *
          clamp 0.1
            ((c2Input.efficiency.bind
              EfficiencyOptions.overheadFactor).getD 1) 10 *
          clamp 1
            ((c2Input.efficiency.bind EfficiencyOptions.pue).getD 1) 3) ∧
    computeEffectivePowerW (withOverheadFactor c2Input 20) =
      computeEffectivePowerW (withOverheadFactor c2Input 10) ∧
    computeEffectivePowerW (withOverheadFactor c2Input 0.01) =
      computeEffectivePowerW (withOverheadFactor c2Input 0.1)) ∧
    computeEffectivePowerW c2Input = .ok (450,
      [Note.basePower 250, Note.overheadFactor 1.5, Note.pue 1.2]) :=
  ⟨computeEffectivePowerW_formula c2Input (by norm_num [c2Input]),
   by norm_num [c2Input, computeEffectivePowerW, requirePositive, clamp,
        min_def, max_def, DEFAULT_OVERHEAD, DEFAULT_PUE]⟩

/-- Validation succeeds on positive values. -/
theorem requirePositive_of_pos {v : ℚ} (name : String) (h : 0 < v) :
    requirePositive name v = .ok () := by
  unfold requirePositive
  rw [if_neg (not_le.mpr h)]

/-- Claim C3: for every token-based usage (chat.completions,
text.completions, ocr) that carries no usage-level
`processingTimeSeconds` override and has `inputTokens > 0`,
`outputTokens > 0` and `throughput.tokensPerSecond > 0`, the derived
processing time equals `(inputTokens + outputTokens) / tokensPerSecond`;
and in the non-energy-override path this time is then divided by
`efficiencyFactor` when `efficiencyFactor` is supplied (which must be
positive), otherwise left unchanged. -/
theorem deriveTime_token_formula_and_efficiency (i o v : ℚ)
    (thr : Option ThroughputConfig) (hi : 0 < i) (ho : 0 < o)
    (hv : thr.bind ThroughputConfig.tokensPerSecond = some v)
    (hvpos : 0 < v) :
    (deriveProcessingTimeSeconds (Usage.chat i o none) thr =
        .ok ((i + o) / v) ∧
     deriveProcessingTimeSeconds (Usage.text i o none) thr =
        .ok ((i + o) / v) ∧
     deriveProcessingTimeSeconds (Usage.ocr i o none) thr =
        .ok ((i + o) / v)) ∧
    (∀ (t : ℚ) (eff : Option EfficiencyOptions),
      (eff.bind EfficiencyOptions.efficiencyFactor = none →
        applyEfficiencyToTime t eff = .ok t) ∧
      (∀ f, eff.bind EfficiencyOptions.efficiencyFactor = some f → 0 < f →
        applyEfficiencyToTime t eff = .ok (t / f))) := by
  have htok : deriveProcessingTimeSeconds.derivedTokenTime i o
      (thr.bind ThroughputConfig.tokensPerSecond) = .ok ((i + o) / v) := by
    unfold deriveProcessingTimeSeconds.derivedTokenTime
    rw [hv]
    rw [requirePositive_of_pos "inputTokens" hi]
    rw [requirePositive_of_pos "outputTokens" ho]
    simp only [requirePositiveOpt]
    rw [requirePositive_of_pos "throughput.tokensPerSecond" hvpos]
    simp
  refine ⟨⟨?_, ?_, ?_⟩, ?_⟩
  · unfold deriveProcessingTimeSeconds
    simpa [Usage.processingTimeSeconds] using htok
  · unfold deriveProcessingTimeSeconds
    simpa [Usage.processingTimeSeconds] using htok
  · unfold deriveProcessingTimeSeconds
    simpa [Usage.processingTimeSeconds] using htok
  · intro t eff
    constructor
    · intro hnone
      unfold applyEfficiencyToTime
      rw [hnone]
    · intro f hf hfpos
      unfold applyEfficiencyToTime
      rw [hf]
      simp [hfpos.ne', requirePositive_of_pos _ hfpos]

/-- Witness for claim C3 at inputTokens = 1000, outputTokens = 200,
tokensPerSecond = 100 (derived time 12 s) and efficiencyFactor 2
(adjusted time 6 s). -/
theorem deriveTime_token_formula_and_efficiency_witness :
    ((deriveProcessingTimeSeconds (Usage.chat 1000 200 none)
        (some { tokensPerSecond := some 100 }) = .ok ((1000 + 200) / 100) ∧
      deriveProcessingTimeSeconds (Usage.text 1000 200 none)
        (some { tokensPerSecond := some 100 }) = .ok ((1000 + 200) / 100) ∧
      deriveProcessingTimeSeconds (Usage.ocr 1000 200 none)
        (some { tokensPerSecond := some 100 }) = .ok ((1000 + 200) / 100)) ∧
     (∀ (t : ℚ) (eff : Option EfficiencyOptions),
       (eff.bind EfficiencyOptions.efficiencyFactor = none →
         applyEfficiencyToTime t eff = .ok t) ∧
       (∀ f, eff.bind EfficiencyOptions.efficiencyFactor = some f → 0 < f →
         applyEfficiencyToTime t eff = .ok (t / f)))) ∧
    applyEfficiencyToTime 12
      (some { efficiencyFactor := some 2 }) = .ok 6 :=
  ⟨deriveTime_token_formula_and_efficiency 1000 200 100
      (some { tokensPerSecond := some 100 })
      (by norm_num) (by norm_num) (by norm_num) (by norm_num),
   by norm_num [applyEfficiencyToTime, requirePositive]⟩

/-- Claim C4: for every input in which `gridCarbonIntensityGPerKwh` is
present and positive, grid intensity resolution returns exactly that
value, regardless of whether a region and/or a `gridIntensityResolver`
callback are also supplied; quantifying over every possible resolver
callback (in both the pipeline model and the JavaScript runtime-value
model) captures that the callback is never consulted and no region
lookup takes place. -/
theorem resolveGridIntensity_explicit_wins (g : ℚ) (hg : 0 < g)
    (region : Option String) (timestamp : Option ℚ) :
    (∀ resolver,
      resolveGridIntensity region (some g) resolver timestamp = g) ∧
    (∀ resolverJs,
      resolveGridIntensityJs region (some g) resolverJs timestamp =
        JsVal.num g) := by
  constructor
  · intro resolver
    simp [resolveGridIntensity, hg]
  · intro resolverJs
    simp [resolveGridIntensityJs, hg]

/-- Witness for claim C4: explicit value 123 with region `"eu"` and a
resolver that would return 999; the explicit value wins. -/
theorem resolveGridIntensity_explicit_wins_witness :
    ((∀ resolver,
       resolveGridIntensity (some "eu") (some 123) resolver none = 123) ∧
     (∀ resolverJs,
       resolveGridIntensityJs (some "eu") (some 123) resolverJs none =
         JsVal.num 123)) ∧
    resolveGridIntensity (some "eu") (some 123)
      (some (fun _ _ => 999)) none = 123 :=
  ⟨resolveGridIntensity_explicit_wins 123 (by norm_num) (some "eu") none,
   (resolveGridIntensity_explicit_wins 123 (by norm_num)
      (some "eu") none).1 (some (fun _ _ => 999))⟩

/-- Counterexample to claim C5 as stated: a resolver callback returning
positive infinity — a non-finite value — passes the source's check
`typeof resolved === "number" && resolved > 0` and is used as the
resolved grid intensity, instead of being treated as "no answer" and
falling through to the global table value 475 as the claim requires for
every non-finite return value. -/
theorem resolveGridIntensityJs_posInf_used :
    resolveGridIntensityJs none none
      (some (fun _ _ => JsVal.posInf)) none = JsVal.posInf ∧
    JsVal.posInf ≠ JsVal.num 475 :=
  ⟨rfl, fun h => JsVal.noConfusion h⟩

/-- Claim C5 amended: when no explicit `gridCarbonIntensityGPerKwh` is
given and a `gridIntensityResolver` callback is supplied, its return
value is used exactly when it is of number type and compares greater
than zero under JavaScript semantics — which admits positive infinity,
while `NaN` and negative infinity fail the comparison; for every return
value failing that check (non-positive, non-numeric, `NaN`, negative
infinity), resolution does not throw or abort but continues to the
region-table lookup and then the global fallback. -/
theorem resolveGridIntensityJs_resolver_check (region : Option String)
    (timestamp : Option ℚ) (f : Option String → Option ℚ → JsVal)
    (r : JsVal) (hr : f (normalizeRegion region) timestamp = r) :
    resolveGridIntensityJs region none (some f) timestamp =
      (if r.isNumberType && r.gtZero then r
       else JsVal.num (gridTableStep (normalizeRegion region))) ∧
    JsVal.num (gridTableStep (normalizeRegion region)) =
      resolveGridIntensityJs region none none timestamp := by
  constructor
  · unfold resolveGridIntensityJs
      resolveGridIntensityJs.resolveGridIntensityJsRest
    dsimp only []
    rw [hr]
  · rfl

/-- Witness for the amended claim C5: a resolver returning the non-positive
number -7 is ignored and resolution falls through to the global value
475. -/
theorem resolveGridIntensityJs_resolver_check_witness :
    (resolveGridIntensityJs none none
        (some (fun _ _ => JsVal.num (-7))) none =
      (if (JsVal.num (-7)).isNumberType && (JsVal.num (-7)).gtZero then
        JsVal.num (-7)
       else JsVal.num (gridTableStep (normalizeRegion none))) ∧
     JsVal.num (gridTableStep (normalizeRegion none)) =
       resolveGridIntensityJs none none none none) ∧
    resolveGridIntensityJs none none
      (some (fun _ _ => JsVal.num (-7))) none = JsVal.num 475 :=
  ⟨resolveGridIntensityJs_resolver_check none none
      (fun _ _ => JsVal.num (-7)) (JsVal.num (-7)) rfl,
   by norm_num [resolveGridIntensityJs,
     resolveGridIntensityJs.resolveGridIntensityJsRest, normalizeRegion,
     gridTableStep, JsVal.isNumberType, JsVal.gtZero, lookupTable,
     DEFAULT_GRID_CARBON_G_PER_KWH]⟩

/-- Claim C6: for every input without an energy override,
`estimateImpactRange` evaluates the estimator on the all-mins input and
the all-maxes input and reports `energyKwhMin`/`Max` and
`co2GramsMin`/`Max` as the pointwise min and max of those two
evaluations' outputs, without assuming which extreme yields the smaller
output. -/
theorem estimateImpactRange_pointwise_minmax (input : ImpactInputs)
    (ranges : UncertaintyRanges) (hno : hasEnergyOverrideB input = false)
    (lowR highR : ImpactResult) (r : ImpactRangeResult)
    (hlow : estimateImpact (buildInputWithRanges input ranges Pick.min) =
      .ok lowR)
    (hhigh : estimateImpact (buildInputWithRanges input ranges Pick.max) =
      .ok highR)
    (hr : estimateImpactRange input ranges = .ok r) :
    r.energyKwhMin = Min.min lowR.energyKwh highR.energyKwh ∧
    r.energyKwhMax = Max.max lowR.energyKwh highR.energyKwh ∧
    r.co2GramsMin = Min.min lowR.co2Grams highR.co2Grams ∧
    r.co2GramsMax = Max.max lowR.co2Grams highR.co2Grams := by
  unfold estimateImpactRange at hr
  split at hr
  · cases hr
  · split at hr
    · cases hr
    · rename_i base hbase
      rw [hno, if_neg Bool.false_ne_true] at hr
      rw [hlow] at hr
      dsimp only [] at hr
      rw [hhigh] at hr
      dsimp only [] at hr
      injection hr with hr'
      subst hr'
      exact ⟨rfl, rfl, rfl, rfl⟩

/-- Concrete base input for claim C6 (no energy override, explicit time). -/
def c6Input : ImpactInputs :=
  { gpuPowerW := 100, processingTimeSeconds := some 10 }

/-- Concrete ranges for claim C6: only `efficiencyFactor` is ranged, from
1.0 to 2.0. -/
def c6Ranges : UncertaintyRanges :=
  { efficiencyFactor := some { min := 1, max := 2 } }

/-- Expected low (all-mins, efficiencyFactor = 1) evaluation for claim C6. -/
def c6Low : ImpactResult :=
  { category := none
    energyKwh := 1/3600
    co2Grams := 19/144
    gridCarbonIntensityGPerKwh := 475
    effectivePowerW := 100
    processingTimeSeconds := 10
    notes := [Note.basePower 100, Note.overheadFactor 1, Note.pue 1,
              Note.gridIntensity 475] }

/-- Expected high (all-maxes, efficiencyFactor = 2) evaluation for claim
C6: the divisor halves the time, so the high input yields LESS energy. -/
def c6High : ImpactResult :=
  { category := none
    energyKwh := 1/7200
    co2Grams := 19/288
    gridCarbonIntensityGPerKwh := 475
    effectivePowerW := 100
    processingTimeSeconds := 5
    notes := [Note.basePower 100, Note.overheadFactor 1, Note.pue 1,
              Note.gridIntensity 475] }

/-- Expected range result for claim C6. -/
def c6RangeResult : ImpactRangeResult :=
  { base := c6Low
    energyKwhMin := 1/7200
    energyKwhMax := 1/3600
    co2GramsMin := 19/288
    co2GramsMax := 19/144 }

/-- Witness for claim C6 with `efficiencyFactor` ranged over [1.0, 2.0] and
all other inputs fixed: `energyKwhMin` equals the high evaluation's
energy and `energyKwhMax` equals the low evaluation's energy, i.e. the
evaluator is direction-agnostic. -/
theorem estimateImpactRange_pointwise_minmax_witness :
    (c6RangeResult.energyKwhMin = Min.min c6Low.energyKwh c6High.energyKwh ∧
     c6RangeResult.energyKwhMax = Max.max c6Low.energyKwh c6High.energyKwh ∧
     c6RangeResult.co2GramsMin = Min.min c6Low.co2Grams c6High.co2Grams ∧
     c6RangeResult.co2GramsMax = Max.max c6Low.co2Grams c6High.co2Grams) ∧
    c6RangeResult.energyKwhMin = c6High.energyKwh ∧
    c6RangeResult.energyKwhMax = c6Low.energyKwh ∧
    c6High.energyKwh < c6Low.energyKwh :=
  ⟨estimateImpactRange_pointwise_minmax c6Input c6Ranges
    (by norm_num [hasEnergyOverrideB, truthy, c6Input])
    c6Low c6High c6RangeResult
    (by norm_num [c6Input, c6Ranges, c6Low, buildInputWithRanges,
      pickRangeValue, estimateImpact, resolveGridIntensity,
      resolveGridIntensity.resolveGridIntensityRest, gridTableStep,
      normalizeRegion, resolveEnergyKwh, computeEffectivePowerW,
      requirePositive, clamp, energyPathTime, powerPathBaseTime,
      applyEfficiencyToTime, applyBatchSize, precisionNotes, lookupTable,
      DEFAULT_GRID_CARBON_G_PER_KWH, DEFAULT_OVERHEAD, DEFAULT_PUE,
      min_def, max_def])
    (by norm_num [c6Input, c6Ranges, c6High, buildInputWithRanges,
      pickRangeValue, estimateImpact, resolveGridIntensity,
      resolveGridIntensity.resolveGridIntensityRest, gridTableStep,
      normalizeRegion, resolveEnergyKwh, computeEffectivePowerW,
      requirePositive, clamp, energyPathTime, powerPathBaseTime,
      applyEfficiencyToTime, applyBatchSize, precisionNotes, lookupTable,
      DEFAULT_GRID_CARBON_G_PER_KWH, DEFAULT_OVERHEAD, DEFAULT_PUE,
      min_def, max_def])
    (by norm_num [c6Input, c6Ranges, c6Low, c6High, c6RangeResult,
      estimateImpactRange, validateAllRanges, validateRange,
      hasEnergyOverrideB, truthy, buildInputWithRanges, pickRangeValue,
      estimateImpact, resolveGridIntensity,
      resolveGridIntensity.resolveGridIntensityRest, gridTableStep,
      normalizeRegion, resolveEnergyKwh, computeEffectivePowerW,
      requirePositive, clamp, energyPathTime, powerPathBaseTime,
      applyEfficiencyToTime, applyBatchSize, precisionNotes, lookupTable,
      DEFAULT_GRID_CARBON_G_PER_KWH, DEFAULT_OVERHEAD, DEFAULT_PUE,
      min_def, max_def]),
   by norm_num [c6RangeResult, c6High],
   by norm_num [c6RangeResult, c6Low],
   by norm_num [c6High, c6Low]⟩

/-- Claim C7: for every input that carries an energy override
(`energy.energyKwh` or `energy.energyJoules`), `estimateImpactRange`
ignores all supplied uncertainty ranges (the conclusion holds for every
`ranges` value) and returns `energyKwhMin = energyKwhMax =
base.energyKwh` and `co2GramsMin = co2GramsMax = base.co2Grams`, where
`base` is the nominal estimator result on the unchanged input. -/
theorem estimateImpactRange_override_degenerate (input : ImpactInputs)
    (ranges : UncertaintyRanges)
    (hov : (∃ k, input.energy.bind EnergyInputs.energyKwh = some k ∧
              0 < k) ∨
           (∃ j, input.energy.bind EnergyInputs.energyJoules = some j ∧
              0 < j))
    (b : ImpactResult) (hb : estimateImpact input = .ok b)
    (r : ImpactRangeResult)
    (hr : estimateImpactRange input ranges = .ok r) :
    r.base = b ∧
    r.energyKwhMin = b.energyKwh ∧ r.energyKwhMax = b.energyKwh ∧
    r.co2GramsMin = b.co2Grams ∧ r.co2GramsMax = b.co2Grams := by
  have hhas : hasEnergyOverrideB input = true := by
    unfold hasEnergyOverrideB
    rcases hov with ⟨k, hk, hkpos⟩ | ⟨j, hj, hjpos⟩
    · rw [hk]
      simp [truthy, hkpos.ne']
    · rw [hj]
      simp [truthy, hjpos.ne']
  unfold estimateImpactRange at hr
  split at hr
  · cases hr
  · split at hr
    · cases hr
    · rename_i base hbase
      rw [hb] at hbase
      injection hbase with hbase'
      subst hbase'
      rw [hhas, if_pos rfl] at hr
      injection hr with hr'
      subst hr'
      exact ⟨rfl, rfl, rfl, rfl, rfl⟩

/-- Concrete input for claim C7: an explicit energy override of 0.05 kWh
together with a measured time. -/
def c7Input : ImpactInputs :=
  { gpuPowerW := 100, processingTimeSeconds := some 10,
    energy := some { energyKwh := some (1/20) } }

/-- Concrete nonempty ranges for claim C7 (they must be ignored). -/
def c7Ranges : UncertaintyRanges :=
  { gpuPowerW := some { min := 50, max := 200 } }

/-- Expected nominal result for claim C7 (energy-override path). -/
def c7Base : ImpactResult :=
  { category := none
    energyKwh := 1/20
    co2Grams := 95/4
    gridCarbonIntensityGPerKwh := 475
    effectivePowerW := 100
    processingTimeSeconds := 10
    notes := [Note.basePower 100, Note.overheadFactor 1, Note.pue 1,
              Note.energyOverrideProvided,
              Note.timeProvidedAlongsideEnergy, Note.gridIntensity 475] }

/-- Expected degenerate range result for claim C7. -/
def c7RangeResult : ImpactRangeResult :=
  { base := c7Base
    energyKwhMin := 1/20
    energyKwhMax := 1/20
    co2GramsMin := 95/4
    co2GramsMax := 95/4 }

/-- Witness for claim C7 at `c7Input` with the nonempty ranges `c7Ranges`. -/
theorem estimateImpactRange_override_degenerate_witness :
    c7RangeResult.base = c7Base ∧
    c7RangeResult.energyKwhMin = c7Base.energyKwh ∧
    c7RangeResult.energyKwhMax = c7Base.energyKwh ∧
    c7RangeResult.co2GramsMin = c7Base.co2Grams ∧
    c7RangeResult.co2GramsMax = c7Base.co2Grams :=
  estimateImpactRange_override_degenerate c7Input c7Ranges
    (Or.inl ⟨1/20, by norm_num [c7Input], by norm_num⟩)
    c7Base
    (by norm_num [c7Input, c7Base, estimateImpact, resolveGridIntensity,
      resolveGridIntensity.resolveGridIntensityRest, gridTableStep,
      normalizeRegion, resolveEnergyKwh,
      resolveEnergyKwh.resolveEnergyFromJoules, computeEffectivePowerW,
      requirePositive, clamp, energyPathTime, powerPathBaseTime,
      applyEfficiencyToTime, applyBatchSize, precisionNotes, lookupTable,
      DEFAULT_GRID_CARBON_G_PER_KWH, DEFAULT_OVERHEAD, DEFAULT_PUE,
      min_def, max_def])
    c7RangeResult
    (by norm_num [c7Input, c7Ranges, c7Base, c7RangeResult,
      estimateImpactRange, validateAllRanges, validateRange,
      hasEnergyOverrideB, truthy, estimateImpact, resolveGridIntensity,
      resolveGridIntensity.resolveGridIntensityRest, gridTableStep,
      normalizeRegion, resolveEnergyKwh,
      resolveEnergyKwh.resolveEnergyFromJoules, computeEffectivePowerW,
      requirePositive, clamp, energyPathTime, powerPathBaseTime,
      applyEfficiencyToTime, applyBatchSize, precisionNotes, lookupTable,
      DEFAULT_GRID_CARBON_G_PER_KWH, DEFAULT_OVERHEAD, DEFAULT_PUE,
      min_def, max_def])

/-- Concrete input refuting claim C8: `cpuPowerW` explicitly supplied as
0. -/
def c8Input : ImpactInputs :=
  { gpuPowerW := 100, cpuPowerW := some 0,
    processingTimeSeconds := some 10 }

/-- The same input with `cpuPowerW` omitted. -/
def c8InputOmitted : ImpactInputs :=
  { gpuPowerW := 100, processingTimeSeconds := some 10 }

/-- Result produced for both `c8Input` and `c8InputOmitted`. -/
def c8Result : ImpactResult :=
  { category := none
    energyKwh := 1/3600
    co2Grams := 19/144
    gridCarbonIntensityGPerKwh := 475
    effectivePowerW := 100
    processingTimeSeconds := 10
    notes := [Note.basePower 100, Note.overheadFactor 1, Note.pue 1,
              Note.gridIntensity 475] }

/-- Counterexample to claim C8 as stated: supplying `cpuPowerW = 0` does
NOT raise a fatal error — the truthiness guard in front of the
validation skips it, the estimator accepts the input and returns
exactly the result of the input with the field omitted. -/
theorem estimateImpact_cpu_zero_accepted :
    estimateImpact c8Input = .ok c8Result ∧
    estimateImpact c8InputOmitted = .ok c8Result :=
  ⟨by norm_num [c8Input, c8Result, estimateImpact, resolveGridIntensity,
      resolveGridIntensity.resolveGridIntensityRest, gridTableStep,
      normalizeRegion, resolveEnergyKwh, computeEffectivePowerW,
      requirePositive, clamp, energyPathTime, powerPathBaseTime,
      applyEfficiencyToTime, applyBatchSize, precisionNotes, lookupTable,
      DEFAULT_GRID_CARBON_G_PER_KWH, DEFAULT_OVERHEAD, DEFAULT_PUE,
      min_def, max_def],
   by norm_num [c8InputOmitted, c8Result, estimateImpact,
      resolveGridIntensity,
      resolveGridIntensity.resolveGridIntensityRest, gridTableStep,
      normalizeRegion, resolveEnergyKwh, computeEffectivePowerW,
      requirePositive, clamp, energyPathTime, powerPathBaseTime,
      applyEfficiencyToTime, applyBatchSize, precisionNotes, lookupTable,
      DEFAULT_GRID_CARBON_G_PER_KWH, DEFAULT_OVERHEAD, DEFAULT_PUE,
      min_def, max_def]⟩

/-- Claim C8 amended: for every input in which `cpuPowerW` or
`networkPowerW` is explicitly supplied with a NEGATIVE value, the
estimator raises a fatal error naming that field and produces no
result; an explicitly supplied 0, however, is skipped by the truthiness
guard and means zero contribution, exactly like omitting the field. -/
theorem estimateImpact_cpu_net_validation (input : ImpactInputs)
    (hgpu : 0 < input.gpuPowerW) :
    (∀ c, input.cpuPowerW = some c → c < 0 →
      estimateImpact input =
        .error "cpuPowerW must be a positive number.") ∧
    (∀ c, input.networkPowerW = some c → c < 0 →
      0 ≤ input.cpuPowerW.getD 0 →
      estimateImpact input =
        .error "networkPowerW must be a positive number.") ∧
    (input.cpuPowerW = some 0 →
      computeEffectivePowerW input =
        computeEffectivePowerW { input with cpuPowerW := none }) ∧
    (input.networkPowerW = some 0 →
      computeEffectivePowerW input =
        computeEffectivePowerW { input with networkPowerW := none }) := by
  refine ⟨?_, ?_, ?_, ?_⟩
  · intro c hcField hcneg
    simp [estimateImpact, computeEffectivePowerW, requirePositive, hcField,
      not_le.mpr hgpu, hcneg.ne, hcneg.le]
  · intro c hnField hcneg hcok
    by_cases hz : input.cpuPowerW.getD 0 = 0
    · simp [estimateImpact, computeEffectivePowerW, requirePositive, hz,
        hnField, not_le.mpr hgpu, hcneg.ne, hcneg.le]
    · have hcpos : 0 < input.cpuPowerW.getD 0 :=
        lt_of_le_of_ne hcok (Ne.symm hz)
      simp [estimateImpact, computeEffectivePowerW, requirePositive, hz,
        hnField, not_le.mpr hgpu, not_le.mpr hcpos, hcneg.ne, hcneg.le]
  · intro hc
    refine computeEffectivePowerW_congr _ _ rfl ?_ rfl rfl rfl
    rw [hc]
    rfl
  · intro hn
    refine computeEffectivePowerW_congr _ _ rfl rfl ?_ rfl rfl
    rw [hn]
    rfl

/-- Concrete input with a negative `cpuPowerW` for the amended claim C8. -/
def c8NegInput : ImpactInputs :=
  { gpuPowerW := 100, cpuPowerW := some (-5),
    processingTimeSeconds := some 10 }

/-- Witness for the amended claim C8 at `c8NegInput`: the supplied negative
`cpuPowerW` aborts the estimate with the error naming the field. -/
theorem estimateImpact_cpu_net_validation_witness :
    estimateImpact c8NegInput =
      .error "cpuPowerW must be a positive number." :=
  (estimateImpact_cpu_net_validation c8NegInput
    (by norm_num [c8NegInput])).1 (-5) (by norm_num [c8NegInput])
    (by norm_num)

/-- The aggregation fold from an arbitrary accumulator adds the length and
the two column sums. -/
theorem aggregateImpacts_foldl (l : List ImpactResult)
    (acc : AggregateImpactResult) :
    l.foldl (fun acc result =>
      { count := acc.count + 1
        energyKwh := acc.energyKwh + result.energyKwh
        co2Grams := acc.co2Grams + result.co2Grams }) acc =
      { count := acc.count + l.length
        energyKwh := acc.energyKwh + (l.map ImpactResult.energyKwh).sum
        co2Grams := acc.co2Grams + (l.map ImpactResult.co2Grams).sum } := by
  induction l generalizing acc with
  | nil => simp
  | cons x xs ih =>
    rw [List.foldl_cons, ih]
    simp only [List.length_cons, List.map_cons, List.sum_cons,
      AggregateImpactResult.mk.injEq]
    refine ⟨by omega, by ring, by ring⟩

/-- Closed form of `aggregateImpacts`: count is the length, energy and CO2
are the column sums. -/
theorem aggregateImpacts_closed (l : List ImpactResult) :
    aggregateImpacts l =
      { count := l.length
        energyKwh := (l.map ImpactResult.energyKwh).sum
        co2Grams := (l.map ImpactResult.co2Grams).sum } := by
  unfold aggregateImpacts
  rw [aggregateImpacts_foldl]
  simp

/-- Claim C9: `aggregateImpacts` applied to the empty list returns
`{count: 0, energyKwh: 0, co2Grams: 0}`, and for every list of
`ImpactResult` values and every permutation of it, aggregating the
permuted list yields the same count, energyKwh and co2Grams as
aggregating the original. -/
theorem aggregateImpacts_empty_and_perm (l l' : List ImpactResult)
    (h : l.Perm l') :
    aggregateImpacts [] = { count := 0, energyKwh := 0, co2Grams := 0 } ∧
    aggregateImpacts l = aggregateImpacts l' := by
  refine ⟨rfl, ?_⟩
  rw [aggregateImpacts_closed, aggregateImpacts_closed, h.length_eq,
    (h.map ImpactResult.energyKwh).sum_eq,
    (h.map ImpactResult.co2Grams).sum_eq]

/-- First concrete result for the claim C9 witness. -/
def agA : ImpactResult :=
  { category := none, energyKwh := 1, co2Grams := 2,
    gridCarbonIntensityGPerKwh := 3, effectivePowerW := 4,
    processingTimeSeconds := 5, notes := [] }

/-- Second concrete result for the claim C9 witness. -/
def agB : ImpactResult :=
  { category := none, energyKwh := 10, co2Grams := 20,
    gridCarbonIntensityGPerKwh := 30, effectivePowerW := 40,
    processingTimeSeconds := 50, notes := [] }

/-- Third concrete result for the claim C9 witness. -/
def agC : ImpactResult :=
  { category := none, energyKwh := 100, co2Grams := 200,
    gridCarbonIntensityGPerKwh := 300, effectivePowerW := 400,
    processingTimeSeconds := 500, notes := [] }

/-- Witness for claim C9: the empty aggregation and the permutation
`[a, b, c]` versus `[c, a, b]`. -/
theorem aggregateImpacts_empty_and_perm_witness :
    aggregateImpacts [] = { count := 0, energyKwh := 0, co2Grams := 0 } ∧
    aggregateImpacts [agA, agB, agC] = aggregateImpacts [agC, agA, agB] :=
  aggregateImpacts_empty_and_perm [agA, agB, agC] [agC, agA, agB]
    (@List.perm_append_comm ImpactResult [agA, agB] [agC])

/-- Claim C10: for every input whose `energy.energyKwh` is a negative
number and whose `energy.energyJoules` is absent, `estimateImpact`
treats the energy field as no override (so it computes energy via the
power-times-time path, or raises the missing-combination error when
neither `processingTimeSeconds` nor `usage` is present, as shown on a
second such input), yet `estimateImpactRange` classifies the same input
as carrying an energy override and returns
`energyKwhMin = energyKwhMax = base.energyKwh`, ignoring all supplied
uncertainty ranges. -/
theorem negative_energyKwh_inconsistency (input input' : ImpactInputs)
    (k k' : ℚ)
    (hk : input.energy = some { energyKwh := some k, energyJoules := none })
    (hkneg : k < 0)
    (hk' : input'.energy =
      some { energyKwh := some k', energyJoules := none })
    (hkneg' : k' < 0)
    (hnopts : input'.processingTimeSeconds = none)
    (hnousage : input'.usage = none) (p : ℚ) (ns : List Note)
    (hpw : computeEffectivePowerW input' = .ok (p, ns)) :
    resolveEnergyKwh input.energy = none ∧
    hasEnergyOverrideB input = true ∧
    (∀ (ranges : UncertaintyRanges) (r : ImpactRangeResult)
       (b : ImpactResult),
      estimateImpactRange input ranges = .ok r →
      estimateImpact input = .ok b →
      r.base = b ∧
      r.energyKwhMin = b.energyKwh ∧ r.energyKwhMax = b.energyKwh ∧
      r.co2GramsMin = b.co2Grams ∧ r.co2GramsMax = b.co2Grams) ∧
    estimateImpact input' =
      .error "Either processingTimeSeconds, usage, or energy must be provided." := by
  have hhas : hasEnergyOverrideB input = true := by
    simp [hasEnergyOverrideB, truthy, hk, hkneg.ne]
  refine ⟨?_, hhas, ?_, ?_⟩
  · simp [resolveEnergyKwh, resolveEnergyKwh.resolveEnergyFromJoules, hk,
      not_lt.mpr hkneg.le]
  · intro ranges r b hr hb
    unfold estimateImpactRange at hr
    split at hr
    · cases hr
    · split at hr
      · cases hr
      · rename_i base hbase
        rw [hb] at hbase
        injection hbase with hbase'
        subst hbase'
        rw [hhas, if_pos rfl] at hr
        injection hr with hr'
        subst hr'
        exact ⟨rfl, rfl, rfl, rfl, rfl⟩
  · have h1 : resolveEnergyKwh input'.energy = none := by
      simp [resolveEnergyKwh, resolveEnergyKwh.resolveEnergyFromJoules, hk',
        not_lt.mpr hkneg'.le]
    simp [estimateImpact, powerPathBaseTime, hpw, h1, hnopts, hnousage]

/-- Concrete input for claim C10: negative `energyKwh` alongside a measured
time. -/
def c10Input : ImpactInputs :=
  { gpuPowerW := 100, processingTimeSeconds := some 10,
    energy := some { energyKwh := some (-5), energyJoules := none } }

/-- The same negative-energy input without time or usage. -/
def c10InputNoTime : ImpactInputs :=
  { gpuPowerW := 100,
    energy := some { energyKwh := some (-5), energyJoules := none } }

/-- Concrete nonempty ranges for claim C10 (ignored by the evaluator). -/
def c10Ranges : UncertaintyRanges :=
  { gpuPowerW := some { min := 50, max := 200 } }

/-- Nominal result on `c10Input`: computed through the power-times-time
path (1/3600 kWh), not from the negative override. -/
def c10Base : ImpactResult :=
  { category := none
    energyKwh := 1/3600
    co2Grams := 19/144
    gridCarbonIntensityGPerKwh := 475
    effectivePowerW := 100
    processingTimeSeconds := 10
    notes := [Note.basePower 100, Note.overheadFactor 1, Note.pue 1,
              Note.gridIntensity 475] }

/-- Degenerate range result returned for `c10Input` despite the supplied
`gpuPowerW` range. -/
def c10RangeResult : ImpactRangeResult :=
  { base := c10Base
    energyKwhMin := 1/3600
    energyKwhMax := 1/3600
    co2GramsMin := 19/144
    co2GramsMax := 19/144 }

/-- Witness for claim C10 at `c10Input` (power path plus degenerate
envelope) and `c10InputNoTime` (missing-combination error). -/
theorem negative_energyKwh_inconsistency_witness :
    (resolveEnergyKwh c10Input.energy = none ∧
     hasEnergyOverrideB c10Input = true ∧
     (∀ (ranges : UncertaintyRanges) (r : ImpactRangeResult)
        (b : ImpactResult),
       estimateImpactRange c10Input ranges = .ok r →
       estimateImpact c10Input = .ok b →
       r.base = b ∧
       r.energyKwhMin = b.energyKwh ∧ r.energyKwhMax = b.energyKwh ∧
       r.co2GramsMin = b.co2Grams ∧ r.co2GramsMax = b.co2Grams) ∧
     estimateImpact c10InputNoTime =
       .error "Either processingTimeSeconds, usage, or energy must be provided.") ∧
    estimateImpactRange c10Input c10Ranges = .ok c10RangeResult :=
  ⟨negative_energyKwh_inconsistency c10Input c10InputNoTime (-5) (-5)
    (by norm_num [c10Input]) (by norm_num)
    (by norm_num [c10InputNoTime]) (by norm_num)
    (by norm_num [c10InputNoTime]) (by norm_num [c10InputNoTime])
    100 [Note.basePower 100, Note.overheadFactor 1, Note.pue 1]
    (by norm_num [c10InputNoTime, computeEffectivePowerW, requirePositive,
      clamp, min_def, max_def, DEFAULT_OVERHEAD, DEFAULT_PUE]),
   by norm_num [c10Input, c10Ranges, c10Base, c10RangeResult,
     estimateImpactRange, validateAllRanges, validateRange,
     hasEnergyOverrideB, truthy, estimateImpact, resolveGridIntensity,
     resolveGridIntensity.resolveGridIntensityRest, gridTableStep,
     normalizeRegion, resolveEnergyKwh,
     resolveEnergyKwh.resolveEnergyFromJoules, computeEffectivePowerW,
     requirePositive, clamp, energyPathTime, powerPathBaseTime,
     applyEfficiencyToTime, applyBatchSize, precisionNotes, lookupTable,
     DEFAULT_GRID_CARBON_G_PER_KWH, DEFAULT_OVERHEAD, DEFAULT_PUE,
     min_def, max_def]⟩

end AiFootprint
